import Mathlib

/-!
Verification of the quality-control double-scan workflow.

The development embeds, as executable Lean functions, the store layer
(`src/db/quality-control-queries.js`), the SQL stored procedures
(`src/sql/quality-control-schema.sql`), the business logic
(`src/logic/quality-control-logic.js`), the renderer duplicate
suppression (`src/renderer/app.js`) and the main-process rate limiter
(`src/unnamed/part_000`).

Modelling conventions:
* the `QualityControlSteps` table is a list of `QCStep` rows; `GETDATE()`
  is an explicit `now : Nat` parameter (seconds for the store layer,
  milliseconds for the renderer and the rate limiter, matching the units
  each source file computes with);
* a database call that can throw is `Except Unit`; injected failures and
  the `hasStoredProcedure` probes are fields of an environment record;
* `CAST(x AS DATE)` equality is `sameDay` (integer division by 86400);
* columns not read by any claim (quality rating, defect fields, batch
  metadata) are omitted from the row type;
* in-memory caches are modelled by the value the current call observes
  (the `activeStepsCache` entry for the session at hand); cache
  write-backs after a call do not affect that call and are not tracked.
-/

namespace QC

/-- QCStatus column: CHECK (QCStatus IN ('active','completed','aborted')). -/
inductive QCStatus where
  | active
  | completed
  | aborted
deriving DecidableEq, Repr

/-- One row of dbo.QualityControlSteps (fields used by the claims). -/
structure QCStep where
  id : Nat
  sessionId : Nat
  qrCode : String
  startScanId : Option Nat
  endScanId : Option Nat
  startTime : Nat
  endTime : Option Nat
  completed : Bool
  qcStatus : QCStatus
  priority : Nat
  qualityNotes : Option String
deriving DecidableEq, Repr

/-- The QualityControlSteps table. -/
abbrev Store := List QCStep

/-- Configuration of QualityControlLogic (constructor, lines 25-33). -/
structure Config where
  maxParallelStepsPerSession : Nat
  stepTimeoutMinutes : Nat
  defaultPriority : Nat
deriving DecidableEq, Repr

/-- Defaults taken when the environment variables are unset:
parseInt(...) falls back to 10, 120 and 1. -/
def defaultConfig : Config :=
  { maxParallelStepsPerSession := 10, stepTimeoutMinutes := 120, defaultPriority := 1 }

/-- CAST(t AS DATE) equality for timestamps counted in seconds. -/
def sameDay (t1 t2 : Nat) : Bool := t1 / 86400 == t2 / 86400

namespace QCQueries

/-- Accumulator for TOP 1 ... ORDER BY StartTime DESC over a row list. -/
def laterOf (acc : Option QCStep) (s : QCStep) : Option QCStep :=
  match acc with
  | none => some s
  | some b => if b.startTime < s.startTime then some s else some b

/-- getLatestQCStepForQRCode (quality-control-queries.js 645-665):
SELECT TOP 1 * WHERE SessionID = ? AND QrCode = ? ORDER BY StartTime DESC,
with no filter on status or on the Completed flag. -/
def getLatestQCStepForQRCode (store : Store) (sessionId : Nat) (qrCode : String) :
    Option QCStep :=
  (store.filter (fun s => s.sessionId == sessionId && s.qrCode == qrCode)).foldl laterOf none

/-- IDENTITY(1,1) column: next fresh row id. -/
def nextId (store : Store) : Nat :=
  (store.map QCStep.id).foldl Nat.max 0 + 1

/-- startQCStep (quality-control-queries.js 202-224): a plain
INSERT INTO QualityControlSteps (SessionID, QrCode, StartScanID, StartTime,
Completed) VALUES (?,?,?,GETDATE(),0) with OUTPUT INSERTED.*; the other
columns take their defaults (QCStatus 'active', Priority 1). There is no
conditional check against existing active rows on this path. -/
def startQCStep (store : Store) (sessionId : Nat) (qrCode : String)
    (startScanId : Nat) (now : Nat) : QCStep × Store :=
  let step : QCStep :=
    { id := nextId store, sessionId := sessionId, qrCode := qrCode,
      startScanId := some startScanId, endScanId := none, startTime := now,
      endTime := none, completed := false, qcStatus := QCStatus.active,
      priority := 1, qualityNotes := none }
  (step, store ++ [step])

/-- SELECT TOP 1 WHERE SessionID = ? AND QrCode = ? AND Completed = 0
ORDER BY StartTime DESC (first half of completeQCStep). -/
def latestOpenStep (store : Store) (sessionId : Nat) (qrCode : String) : Option QCStep :=
  (store.filter (fun s => s.sessionId == sessionId && s.qrCode == qrCode && !s.completed)).foldl
    laterOf none

/-- completeQCStep (quality-control-queries.js 233-276): find the newest
row with Completed = 0, then UPDATE it with EndScanID, EndTime = GETDATE(),
Completed = 1. The basic table has no QCStatus column, so the status field
is left untouched on this path. Returns none when no open row exists. -/
def completeQCStep (store : Store) (sessionId : Nat) (qrCode : String)
    (endScanId : Nat) (now : Nat) : Option (QCStep × Store) :=
  match latestOpenStep store sessionId qrCode with
  | none => none
  | some t =>
    let upd := fun (s : QCStep) =>
      if s.id == t.id then
        { s with endScanId := some endScanId, endTime := some now, completed := true }
      else s
    some (upd t, store.map upd)

/-- abortActiveStepsForSession (quality-control-queries.js 283-305):
UPDATE ... SET EndTime = GETDATE(), Completed = 1 WHERE SessionID = ? AND
Completed = 0; returns rowsAffected. No status change, no reason recorded. -/
def abortActiveStepsForSession (store : Store) (sessionId : Nat) (now : Nat) :
    Nat × Store :=
  let isTarget := fun (s : QCStep) => s.sessionId == sessionId && !s.completed
  ((store.filter isTarget).length,
   store.map (fun s =>
     if isTarget s then { s with endTime := some now, completed := true } else s))

/-- getActiveQCStepsForSession (quality-control-queries.js 314-331):
SELECT ... WHERE SessionID = ? AND Completed = 0. -/
def getActiveQCStepsForSession (store : Store) (sessionId : Nat) : List QCStep :=
  store.filter (fun s => s.sessionId == sessionId && !s.completed)

/-- getCompletedQCStepsToday (quality-control-queries.js 338-357):
SELECT ... WHERE SessionID = ? AND Completed = 1 AND
CAST(StartTime AS DATE) = CAST(GETDATE() AS DATE). -/
def getCompletedQCStepsToday (store : Store) (sessionId : Nat) (now : Nat) :
    List QCStep :=
  store.filter (fun s => s.sessionId == sessionId && s.completed && sameDay s.startTime now)

end QCQueries

namespace Schema

/-- The EXISTS subquery of sp_StartQCStep (quality-control-schema.sql
343-348): a row with this session, this code and QCStatus = 'active'. -/
def hasActiveFor (store : Store) (sessionId : Nat) (qrCode : String) : Bool :=
  store.any (fun s =>
    s.sessionId == sessionId && s.qrCode == qrCode && s.qcStatus == QCStatus.active)

/-- sp_StartQCStep (quality-control-schema.sql 330-384): inside a
transaction, RAISERROR when an active row for (session, code) already
exists, otherwise INSERT a fresh row with QCStatus 'active', Completed 0. -/
def sp_StartQCStep (store : Store) (sessionId : Nat) (qrCode : String)
    (startScanId : Nat) (priority : Nat) (now : Nat) : Except Unit (QCStep × Store) :=
  if hasActiveFor store sessionId qrCode then Except.error ()
  else
    let step : QCStep :=
      { id := QCQueries.nextId store, sessionId := sessionId, qrCode := qrCode,
        startScanId := some startScanId, endScanId := none, startTime := now,
        endTime := none, completed := false, qcStatus := QCStatus.active,
        priority := priority, qualityNotes := none }
    Except.ok (step, store ++ [step])

/-- SELECT TOP 1 WHERE SessionID = ? AND QrCode = ? AND QCStatus = 'active'
ORDER BY StartTime DESC (lookup inside sp_CompleteQCStep). -/
def latestActiveStep (store : Store) (sessionId : Nat) (qrCode : String) : Option QCStep :=
  (store.filter (fun s =>
    s.sessionId == sessionId && s.qrCode == qrCode && s.qcStatus == QCStatus.active)).foldl
    QCQueries.laterOf none

/-- sp_CompleteQCStep (quality-control-schema.sql 391-459): RAISERROR when
no active row exists; otherwise UPDATE it with EndScanID, EndTime,
Completed = 1, QCStatus = 'completed' and the quality parameters (the
logic layer passes null notes, modelled as none). -/
def sp_CompleteQCStep (store : Store) (sessionId : Nat) (qrCode : String)
    (endScanId : Nat) (now : Nat) : Except Unit (QCStep × Store) :=
  match latestActiveStep store sessionId qrCode with
  | none => Except.error ()
  | some t =>
    let upd := fun (s : QCStep) =>
      if s.id == t.id then
        { s with endScanId := some endScanId, endTime := some now,
                 completed := true, qcStatus := QCStatus.completed,
                 qualityNotes := none }
      else s
    Except.ok (upd t, store.map upd)

/-- COALESCE(QualityNotes + ' | ', '') + @AbortReason. -/
def appendNote (notes : Option String) (reason : String) : String :=
  match notes with
  | none => reason
  | some n => n ++ " | " ++ reason

/-- sp_AbortActiveQCSteps (quality-control-schema.sql 467-505): UPDATE every
row of the session with QCStatus = 'active' to QCStatus = 'aborted',
EndTime = GETDATE(), reason appended to QualityNotes; the Completed flag is
not written. Returns @@ROWCOUNT. -/
def sp_AbortActiveQCSteps (store : Store) (sessionId : Nat) (reason : String)
    (now : Nat) : Nat × Store :=
  let isTarget := fun (s : QCStep) => s.sessionId == sessionId && s.qcStatus == QCStatus.active
  ((store.filter isTarget).length,
   store.map (fun s =>
     if isTarget s then
       { s with qcStatus := QCStatus.aborted, endTime := some now,
                qualityNotes := some (appendNote s.qualityNotes reason) }
     else s))

end Schema

namespace QCLogic

/-- Per-call environment of QualityControlLogic: the configuration, the
result of validateSession, the three hasStoredProcedure probes, injected
store failures (a dbClient.query call that throws), the activeStepsCache
entry for the session at hand, and the clock. -/
structure Env where
  cfg : Config
  sessionOk : Bool
  hasSPStart : Bool
  hasSPComplete : Bool
  hasSPAbort : Bool
  failStartStore : Bool
  failCompleteStore : Bool
  failActiveStepsQuery : Bool
  cache : Option (List Nat)
  now : Nat
deriving DecidableEq, Repr

/-- Outcome taxonomy of processQRScan (the type field of the returned
result objects). rate_limit is produced by the main process, not here. -/
inductive ScanOutcome where
  | entrance_started (step : QCStep)
  | exit_completed (step : QCStep) (durationSeconds : Nat)
  | already_completed
  | limit_exceeded (activeStepsCount : Nat)
  | qr_mismatch (expected actual : String)
  | entrance_error
  | exit_error
  | error
deriving DecidableEq, Repr

/-- startQCStep (quality-control-logic.js 239-259): stored procedure when
available, else the direct insert of QualityControlQueries; a throwing
dbClient is rethrown (and caught by the caller). -/
def startQCStep (env : Env) (store : Store) (sessionId : Nat) (qrCode : String)
    (startScanId : Nat) : Except Unit (QCStep × Store) :=
  if env.failStartStore then Except.error ()
  else if env.hasSPStart then
    Schema.sp_StartQCStep store sessionId qrCode startScanId env.cfg.defaultPriority env.now
  else
    Except.ok (QCQueries.startQCStep store sessionId qrCode startScanId env.now)

/-- completeQCStep (quality-control-logic.js 269-302): stored procedure
when available (its RAISERROR surfaces as a thrown error), else the
fallback query, which returns null when no open row matches. -/
def completeQCStep (env : Env) (store : Store) (sessionId : Nat) (qrCode : String)
    (endScanId : Nat) : Except Unit (Option (QCStep × Store)) :=
  if env.failCompleteStore then Except.error ()
  else if env.hasSPComplete then
    match Schema.sp_CompleteQCStep store sessionId qrCode endScanId env.now with
    | Except.error e => Except.error e
    | Except.ok r => Except.ok (some r)
  else
    Except.ok (QCQueries.completeQCStep store sessionId qrCode endScanId env.now)

/-- abortActiveStepsForSession (quality-control-logic.js 310-338): stored
procedure with the reason when available, else the fallback query, which
is called without the reason. -/
def abortActiveStepsForSession (env : Env) (store : Store) (sessionId : Nat)
    (reason : String) : Nat × Store :=
  if env.hasSPAbort then Schema.sp_AbortActiveQCSteps store sessionId reason env.now
  else QCQueries.abortActiveStepsForSession store sessionId env.now

/-- getActiveStepsCount (quality-control-logic.js 607-628): the cache entry
size when present; otherwise the store query, where both the inner catch of
getActiveQCStepsForSession (which returns an empty list) and the outer
catch make a failing query yield 0. -/
def getActiveStepsCount (env : Env) (store : Store) (sessionId : Nat) : Nat :=
  match env.cache with
  | some ids => ids.length
  | none =>
    if env.failActiveStepsQuery then 0
    else (QCQueries.getActiveQCStepsForSession store sessionId).length

/-- Math.floor((end - start) / 1000) over millisecond dates, i.e. the
difference of second-grained timestamps. -/
def calculateStepDurationSeconds (startTime endTime : Nat) : Nat :=
  endTime - startTime

/-- processEntranceScan (quality-control-logic.js 92-157): parallel-limit
check, already-completed-today check, then startQCStep; a thrown error is
caught and mapped to entrance_error. The timeout warning and the cache
write-backs are log-only and in-memory side effects with no influence on
the returned outcome. -/
def processEntranceScan (env : Env) (store : Store) (sessionId : Nat)
    (qrCode : String) (scanId : Nat) : ScanOutcome × Store :=
  let activeStepsCount := getActiveStepsCount env store sessionId
  if env.cfg.maxParallelStepsPerSession ≤ activeStepsCount then
    (ScanOutcome.limit_exceeded activeStepsCount, store)
  else
    let completedToday := QCQueries.getCompletedQCStepsToday store sessionId env.now
    if completedToday.any (fun s => s.qrCode == qrCode) then
      (ScanOutcome.already_completed, store)
    else
      match startQCStep env store sessionId qrCode scanId with
      | Except.error _ => (ScanOutcome.entrance_error, store)
      | Except.ok (step, store2) => (ScanOutcome.entrance_started step, store2)

/-- processExitScan (quality-control-logic.js 167-227): defensive code
match, advisory timeout check (log only), then completeQCStep; both a
thrown error and a null completion are caught and mapped to exit_error. -/
def processExitScan (env : Env) (store : Store) (sessionId : Nat) (qrCode : String)
    (scanId : Nat) (existingStep : QCStep) : ScanOutcome × Store :=
  if existingStep.qrCode != qrCode then
    (ScanOutcome.qr_mismatch existingStep.qrCode qrCode, store)
  else
    match completeQCStep env store sessionId qrCode scanId with
    | Except.error _ => (ScanOutcome.exit_error, store)
    | Except.ok none => (ScanOutcome.exit_error, store)
    | Except.ok (some (step, store2)) =>
      (ScanOutcome.exit_completed step
        (calculateStepDurationSeconds step.startTime (step.endTime.getD env.now)), store2)

/-- processQRScan (quality-control-logic.js 52-83): an invalid session
throws inside the try and surfaces as the error outcome; otherwise the
most recent step for (session, code) is fetched regardless of status and
the branch is chosen by existingStep && !existingStep.Completed. -/
def processQRScan (env : Env) (store : Store) (sessionId : Nat) (qrCode : String)
    (scanId : Nat) : ScanOutcome × Store :=
  if !env.sessionOk then (ScanOutcome.error, store)
  else
    match QCQueries.getLatestQCStepForQRCode store sessionId qrCode with
    | some existingStep =>
      if !existingStep.completed then
        processExitScan env store sessionId qrCode scanId existingStep
      else
        processEntranceScan env store sessionId qrCode scanId
    | none => processEntranceScan env store sessionId qrCode scanId

/-- Character class of the format check in validateQRCode
(quality-control-logic.js 515): ^[a-zA-Z0-9\-_^:;.,\s]+$ with the ASCII
whitespace forms of \s. -/
def allowedQRChar (c : Char) : Bool :=
  (decide ('a' ≤ c) && decide (c ≤ 'z')) ||
  (decide ('A' ≤ c) && decide (c ≤ 'Z')) ||
  (decide ('0' ≤ c) && decide (c ≤ '9')) ||
  c == '-' || c == '_' || c == '^' || c == ':' || c == ';' || c == '.' || c == ',' ||
  c == ' ' || c == '\t' || c == '\n' || c == '\r'

/-- The ASCII whitespace forms stripped by String.prototype.trim. -/
def isTrimmedSpace (c : Char) : Bool :=
  c == ' ' || c == '\t' || c == '\n' || c == '\r' || c == '\x0b' || c == '\x0c'

/-- qrCode.trim() of the source, modelled over the character list:
leading and trailing whitespace removed. -/
def trimCode (l : List Char) : List Char :=
  ((l.dropWhile isTrimmedSpace).reverse.dropWhile isTrimmedSpace).reverse

/-- validateQRCode (quality-control-logic.js 490-527), reduced to its
isValid verdict: empty input, trimmed length outside 5..500, or a
character outside the class is invalid. -/
def validateQRCode (qrCode : String) : Bool :=
  if qrCode == "" then false
  else
    let trimmedCode := trimCode qrCode.toList
    if trimmedCode.length < 5 then false
    else if 500 < trimmedCode.length then false
    else if !trimmedCode.all allowedQRChar then false
    else true

end QCLogic

namespace Renderer

/-- The duplicate-suppression state of QualityControlApp (app.js 24-37):
lastProcessedQR and lastProcessedTime (the last processed scan of any
code), the recentlyScanned code-to-time map, the pendingScans in-flight
set, and scanCooldown (3000 ms in the constructor). -/
structure AppState where
  lastProcessedQR : Option String
  lastProcessedTime : Nat
  recentlyScanned : List (String × Nat)
  pendingScans : List String
  scanCooldown : Nat
deriving DecidableEq, Repr

/-- Map.get of recentlyScanned. -/
def mapGet (m : List (String × Nat)) (k : String) : Option Nat :=
  (m.find? (fun p => p.1 == k)).map (fun p => p.2)

/-- Map.set of recentlyScanned, observed through mapGet. -/
def mapSet (m : List (String × Nat)) (k : String) (v : Nat) : List (String × Nat) :=
  (k, v) :: m

/-- Whether a detected code was handed to processing or silently ignored. -/
inductive DetectResult where
  | dropped
  | processed
deriving DecidableEq, Repr

/-- Check 2 of handleQRCodeDetected (app.js 961-966): recentScanTime
exists and now - recentScanTime < scanCooldown. -/
def cooldownHit (st : AppState) (qrData : String) (now : Nat) : Bool :=
  match mapGet st.recentlyScanned qrData with
  | some recentScanTime => decide (now - recentScanTime < st.scanCooldown)
  | none => false

/-- State written by an accepted scan before processing (app.js 974-978);
pendingScans gains the code and the finally block removes it again, so a
completed call leaves that set as it was. -/
def acceptScan (st : AppState) (qrData : String) (now : Nat) : AppState :=
  { st with lastProcessedQR := some qrData, lastProcessedTime := now,
            recentlyScanned := mapSet st.recentlyScanned qrData now }

/-- handleQRCodeDetected (app.js 946-1012), restricted to its
duplicate-suppression outcome: the three checks in source order —
immediate repeat within 2000 ms, per-code cooldown window, in-flight
guard — each returning silently, then the accepted-scan state update. -/
def handleQRCodeDetected (st : AppState) (qrData : String) (now : Nat) :
    DetectResult × AppState :=
  if st.lastProcessedQR = some qrData ∧ now - st.lastProcessedTime < 2000 then
    (DetectResult.dropped, st)
  else if cooldownHit st qrData now then
    (DetectResult.dropped, st)
  else if qrData ∈ st.pendingScans then
    (DetectResult.dropped, st)
  else
    (DetectResult.processed, acceptScan st qrData now)

end Renderer

namespace MainProcess

/-- this.maxQRScansPerMinute = 30 (part_000 line 62). -/
def maxQRScansPerMinute : Nat := 30

/-- this.qrScanRateLimit: sessionId to scan timestamps (milliseconds). -/
abbrev RateMap := List (Nat × List Nat)

/-- Read of the per-session timestamp array (missing session reads as
the freshly initialised empty array). -/
def rmGet (m : RateMap) (sessionId : Nat) : List Nat :=
  ((m.find? (fun p => p.1 == sessionId)).map (fun p => p.2)).getD []

/-- Map.set of qrScanRateLimit, observed through rmGet. -/
def rmSet (m : RateMap) (sessionId : Nat) (l : List Nat) : RateMap :=
  (sessionId, l) :: m

/-- checkQRScanRateLimit (part_000 1243-1259): lazily prune entries older
than one minute, write the pruned array back, and pass while the recent
count is below maxQRScansPerMinute. -/
def checkQRScanRateLimit (m : RateMap) (sessionId : Nat) (now : Nat) :
    Bool × RateMap :=
  let scanTimes := rmGet m sessionId
  let recentScans := scanTimes.filter (fun t => decide (now - t < 60000))
  (decide (recentScans.length < maxQRScansPerMinute), rmSet m sessionId recentScans)

/-- updateQRScanRateLimit (part_000 1261-1275): push the timestamp, shift
the oldest entry once the array exceeds the cap. -/
def updateQRScanRateLimit (m : RateMap) (sessionId : Nat) (now : Nat) : RateMap :=
  let scanTimes := rmGet m sessionId ++ [now]
  rmSet m sessionId
    (if maxQRScansPerMinute < scanTimes.length then scanTimes.drop 1 else scanTimes)

/-- Status strings returned by the qr-scan-save handler. -/
inductive SaveStatus where
  | database_offline
  | rate_limit
  | saved
  | save_failed
deriving DecidableEq, Repr

/-- External conditions of one qr-scan-save call: database connectivity
and the verdict of dbClient.saveQRScan. -/
structure SaveEnv where
  dbOnline : Bool
  saveSuccess : Bool
deriving DecidableEq, Repr

/-- qr-scan-save handler (part_000 642-701): offline short-circuit, rate
limit check before any write, save, and the limiter update only on a
successful save. The persisted raw scans are modelled as a list of
(sessionId, payload) rows. -/
def qrScanSave (env : SaveEnv) (m : RateMap) (scans : List (Nat × String))
    (sessionId : Nat) (payload : String) (now : Nat) :
    SaveStatus × RateMap × List (Nat × String) :=
  if !env.dbOnline then (SaveStatus.database_offline, m, scans)
  else
    let checked := checkQRScanRateLimit m sessionId now
    if !checked.1 then (SaveStatus.rate_limit, checked.2, scans)
    else if env.saveSuccess then
      (SaveStatus.saved, updateQRScanRateLimit checked.2 sessionId now,
       scans ++ [(sessionId, payload)])
    else (SaveStatus.save_failed, checked.2, scans)

end MainProcess

/-- Number of active rows the store holds for one (session, code) pair. -/
def activeCountFor (store : Store) (sessionId : Nat) (qrCode : String) : Nat :=
  (store.filter (fun s =>
    s.sessionId == sessionId && s.qrCode == qrCode && s.qcStatus == QCStatus.active)).length

/-- The primary consistency invariant: at most one active row per
(session, code) pair. -/
def AtMostOneActive (store : Store) : Prop :=
  ∀ sessionId qrCode, activeCountFor store sessionId qrCode ≤ 1

/-- Which dispatch branch of processQRScan a given store forces: true is
the entry path (no step, or the most recent step has Completed set). -/
def takesEntryPath (store : Store) (sessionId : Nat) (qrCode : String) : Bool :=
  match QCQueries.getLatestQCStepForQRCode store sessionId qrCode with
  | none => true
  | some s => s.completed

/-- Outcomes produced by processEntranceScan. -/
def isEntryOutcome : QCLogic.ScanOutcome → Bool
  | QCLogic.ScanOutcome.entrance_started _ => true
  | QCLogic.ScanOutcome.limit_exceeded _ => true
  | QCLogic.ScanOutcome.already_completed => true
  | QCLogic.ScanOutcome.entrance_error => true
  | _ => false

/-- Outcomes produced by processExitScan. -/
def isExitOutcome : QCLogic.ScanOutcome → Bool
  | QCLogic.ScanOutcome.exit_completed _ _ => true
  | QCLogic.ScanOutcome.qr_mismatch _ _ => true
  | QCLogic.ScanOutcome.exit_error => true
  | _ => false

/-! Concrete rows, stores and environments used by the counterexamples and
the witnesses. -/

/-- An active inspection row for session 1 and code ABC12. -/
def stepActiveABC : QCStep :=
  { id := 1, sessionId := 1, qrCode := "ABC12", startScanId := some 5,
    endScanId := none, startTime := 100, endTime := none, completed := false,
    qcStatus := QCStatus.active, priority := 1, qualityNotes := none }

/-- An active inspection row for session 1 and code X1. -/
def stepActiveX1 : QCStep :=
  { id := 1, sessionId := 1, qrCode := "X1", startScanId := some 5,
    endScanId := none, startTime := 100, endTime := none, completed := false,
    qcStatus := QCStatus.active, priority := 1, qualityNotes := none }

/-- The row sp_AbortActiveQCSteps leaves behind after aborting
stepActiveX1: status aborted, end time set, reason appended, Completed
still 0. -/
def stepAbortedX1 : QCStep :=
  { id := 1, sessionId := 1, qrCode := "X1", startScanId := some 5,
    endScanId := none, startTime := 100, endTime := some 150, completed := false,
    qcStatus := QCStatus.aborted, priority := 1,
    qualityNotes := some "Session neu gestartet" }

/-- Environment in which the stored procedures are unavailable and the
fallback queries run (all store calls succeed, session valid). -/
def envFallback : QCLogic.Env :=
  { cfg := defaultConfig, sessionOk := true, hasSPStart := false,
    hasSPComplete := false, hasSPAbort := false, failStartStore := false,
    failCompleteStore := false, failActiveStepsQuery := false,
    cache := none, now := 200 }

/-- Environment in which all three stored procedures are installed
(all store calls succeed, session valid). -/
def envSP : QCLogic.Env :=
  { cfg := defaultConfig, sessionOk := true, hasSPStart := true,
    hasSPComplete := true, hasSPAbort := true, failStartStore := false,
    failCompleteStore := false, failActiveStepsQuery := false,
    cache := none, now := 200 }

/-- envSP with an invalid session. -/
def envBadSession : QCLogic.Env :=
  { envSP with sessionOk := false }

/-- envFallback with a dbClient that throws on the insert of the entry
step. -/
def envFailStart : QCLogic.Env :=
  { envFallback with failStartStore := true }

/-- envSP with a dbClient that throws on the completion update. -/
def envFailComplete : QCLogic.Env :=
  { envSP with failCompleteStore := true }

/-- envFallback with an activeStepsCache entry of ten step ids. -/
def envCacheTen : QCLogic.Env :=
  { envFallback with cache := some (List.range 10) }

/-- envFallback with an activeStepsCache entry of nine step ids. -/
def envCacheNine : QCLogic.Env :=
  { envFallback with cache := some (List.range 9) }

/-- envFallback with a cache miss and a failing active-steps store read. -/
def envFailQuery : QCLogic.Env :=
  { envFallback with failActiveStepsQuery := true }

/-- A store of fifty active rows for session 1, all with distinct codes
(row k carries code Qk). -/
def storeFifty : Store :=
  (List.range 50).map (fun k =>
    { id := k + 1, sessionId := 1, qrCode := "Q" ++ toString k,
      startScanId := some (k + 1), endScanId := none, startTime := 100 + k,
      endTime := none, completed := false, qcStatus := QCStatus.active,
      priority := 1, qualityNotes := none })

/-- Renderer state before any scan. -/
def freshAppState : Renderer.AppState :=
  { lastProcessedQR := none, lastProcessedTime := 0, recentlyScanned := [],
    pendingScans := [], scanCooldown := 3000 }

/-- Thirty scan timestamps within one minute (0 ms, 1000 ms, ..., 29000 ms). -/
def thirtyTimes : List Nat :=
  (List.range 30).map (fun i => 1000 * i)

/-- Rate map in which session 1 already made thirty scans within the
current minute. -/
def rateMapFull : MainProcess.RateMap :=
  [(1, thirtyTimes)]

end QC

namespace QC

theorem laterOf_eq_some (acc : Option QCStep) (x s : QCStep)
    (h : QCQueries.laterOf acc x = some s) : acc = some s ∨ s = x := by
  cases acc with
  | none =>
    right
    injection h with h
    exact h.symm
  | some b =>
    unfold QCQueries.laterOf at h
    by_cases hb : b.startTime < x.startTime
    · right
      simp [hb] at h
      exact h.symm
    · left
      simp [hb] at h
      simp [h]

theorem foldl_laterOf_eq_some (l : List QCStep) :
    ∀ (acc : Option QCStep) (s : QCStep),
      l.foldl QCQueries.laterOf acc = some s → acc = some s ∨ s ∈ l := by
  induction l with
  | nil =>
    intro acc s h
    exact Or.inl h
  | cons x xs ih =>
    intro acc s h
    simp only [List.foldl_cons] at h
    rcases ih (QCQueries.laterOf acc x) s h with h1 | h2
    · rcases laterOf_eq_some acc x s h1 with h3 | h3
      · exact Or.inl h3
      · right
        rw [h3]
        exact List.mem_cons_self x xs
    · exact Or.inr (List.mem_cons_of_mem x h2)

theorem getLatest_mem (store : Store) (sessionId : Nat) (qrCode : String) (s : QCStep)
    (h : QCQueries.getLatestQCStepForQRCode store sessionId qrCode = some s) :
    s ∈ store ∧ s.sessionId = sessionId ∧ s.qrCode = qrCode := by
  unfold QCQueries.getLatestQCStepForQRCode at h
  rcases foldl_laterOf_eq_some _ none s h with h1 | h1
  · exact Option.noConfusion h1
  · rw [List.mem_filter] at h1
    have h2 := h1.2
    simp only [Bool.and_eq_true, beq_iff_eq] at h2
    exact ⟨h1.1, h2.1, h2.2⟩

theorem getD_map (f : QCStep → QCStep) (d : QCStep) (l : List QCStep) :
    ∀ i, i < l.length → (l.map f).getD i (f d) = f (l.getD i d) := by
  induction l with
  | nil =>
    intro i h
    simp at h
  | cons x xs ih =>
    intro i h
    cases i with
    | zero => simp
    | succ n =>
      simp only [List.map_cons, List.getD_cons_succ]
      exact ih n (by simpa using Nat.lt_of_succ_lt_succ h)

theorem processEntranceScan_isEntry (env : QCLogic.Env) (store : Store)
    (sessionId : Nat) (qrCode : String) (scanId : Nat) :
    isEntryOutcome (QCLogic.processEntranceScan env store sessionId qrCode scanId).1 = true := by
  unfold QCLogic.processEntranceScan
  dsimp only
  split
  · rfl
  · split
    · rfl
    · split <;> rfl

theorem processExitScan_isExit (env : QCLogic.Env) (store : Store)
    (sessionId : Nat) (qrCode : String) (scanId : Nat) (existingStep : QCStep) :
    isExitOutcome (QCLogic.processExitScan env store sessionId qrCode scanId existingStep).1 = true := by
  unfold QCLogic.processExitScan
  split
  · rfl
  · split <;> rfl

end QC

namespace QC

theorem activeCountFor_append_single (store : Store) (a : QCStep)
    (sessionId : Nat) (qrCode : String) :
    activeCountFor (store ++ [a]) sessionId qrCode =
      activeCountFor store sessionId qrCode +
        (if a.sessionId == sessionId && a.qrCode == qrCode && a.qcStatus == QCStatus.active
         then 1 else 0) := by
  unfold activeCountFor
  rw [List.filter_append, List.length_append]
  congr 1
  by_cases hp : (a.sessionId == sessionId && a.qrCode == qrCode &&
      a.qcStatus == QCStatus.active) = true
  · simp [List.filter, hp]
  · simp only [Bool.not_eq_true] at hp
    simp [List.filter, hp]

theorem activeCountFor_eq_zero_of_not_hasActiveFor (store : Store)
    (sessionId : Nat) (qrCode : String)
    (h : Schema.hasActiveFor store sessionId qrCode = false) :
    activeCountFor store sessionId qrCode = 0 := by
  unfold Schema.hasActiveFor at h
  unfold activeCountFor
  rw [List.length_eq_zero, List.filter_eq_nil_iff]
  intro s hs hp
  have hh : (store.any fun t =>
      t.sessionId == sessionId && t.qrCode == qrCode && t.qcStatus == QCStatus.active) = true :=
    List.any_eq_true.mpr ⟨s, hs, hp⟩
  rw [h] at hh
  exact Bool.noConfusion hh

/-- C1: the stored-procedure insert path preserves the at-most-one-active
invariant: sp_StartQCStep inserts only when no active row exists for the
(session, code) pair. -/
theorem C1_sp_insert_preserves_invariant (store : Store) (sessionId : Nat)
    (qrCode : String) (startScanId priority now : Nat) (step : QCStep) (store2 : Store)
    (hinv : AtMostOneActive store)
    (hok : Schema.sp_StartQCStep store sessionId qrCode startScanId priority now =
      Except.ok (step, store2)) :
    AtMostOneActive store2 := by
  unfold Schema.sp_StartQCStep at hok
  by_cases hact : Schema.hasActiveFor store sessionId qrCode = true
  · simp [hact] at hok
  · rw [Bool.not_eq_true] at hact
    simp only [hact, Bool.false_eq_true, if_false, Except.ok.injEq, Prod.mk.injEq] at hok
    obtain ⟨hstep, hstore⟩ := hok
    intro sessionId2 qrCode2
    rw [← hstore]
    rw [activeCountFor_append_single]
    by_cases hmatch : sessionId2 = sessionId ∧ qrCode2 = qrCode
    · obtain ⟨hm1, hm2⟩ := hmatch
      subst hm1
      subst hm2
      rw [activeCountFor_eq_zero_of_not_hasActiveFor store _ _ hact]
      split <;> omega
    · rcases not_and_or.mp hmatch with hm | hm
      · have : (sessionId == sessionId2) = false := by
          simp [beq_iff_eq]
          exact fun hc => hm hc.symm
        simp [this]
        exact hinv sessionId2 qrCode2
      · have : (qrCode == qrCode2) = false := by
          simp [beq_iff_eq]
          exact fun hc => hm hc.symm
        simp [this]
        exact hinv sessionId2 qrCode2

/-- C1 counterexample: with one active row for (1, ABC12) in the store and
the stored procedure unavailable, the fallback direct-insert path of
startQCStep inserts unconditionally, leaving two active rows for the same
(session, code) pair. -/
theorem C1_fallback_insert_violates_invariant :
    activeCountFor [stepActiveABC] 1 "ABC12" = 1 ∧
    (QCLogic.startQCStep envFallback [stepActiveABC] 1 "ABC12" 6).map
      (fun r => activeCountFor r.2 1 "ABC12") = Except.ok 2 := by
  exact ⟨by decide, by rfl⟩

/-- C1 witness: the preservation theorem applied to the empty store. -/
theorem C1_sp_insert_preserves_invariant_witness :
    ∃ step store2,
      Schema.sp_StartQCStep [] 1 "ABC12" 5 1 100 = Except.ok (step, store2) ∧
      AtMostOneActive store2 := by
  refine ⟨_, _, rfl, ?_⟩
  exact C1_sp_insert_preserves_invariant [] 1 "ABC12" 5 1 100 _ _
    (fun sessionId2 qrCode2 => by simp [activeCountFor]) rfl

end QC

namespace QC

theorem getD_map_lt (f : QCStep → QCStep) (d : QCStep) (l : List QCStep) :
    ∀ i, i < l.length → (l.map f).getD i d = f (l.getD i d) := by
  induction l with
  | nil =>
    intro i h
    simp at h
  | cons x xs ih =>
    intro i h
    cases i with
    | zero => simp
    | succ n =>
      simp only [List.map_cons, List.getD_cons_succ]
      exact ih n (Nat.lt_of_succ_lt_succ (by simpa using h))

/-- C2: after a session abort through sp_AbortActiveQCSteps (which sets
QCStatus to aborted but does not touch the Completed flag), the next scan
of the same code is dispatched on the Completed flag, takes the exit path
and fails with exit_error, instead of being treated as a fresh entry. -/
theorem C2_scan_after_sp_abort_takes_exit_path :
    (QCLogic.abortActiveStepsForSession envSP [stepActiveX1] 1 "Session neu gestartet").1 = 1
  ∧ (∀ s ∈ (QCLogic.abortActiveStepsForSession envSP [stepActiveX1] 1
      "Session neu gestartet").2, s.qcStatus = QCStatus.aborted ∧ s.completed = false)
  ∧ (QCLogic.processQRScan envSP
      (QCLogic.abortActiveStepsForSession envSP [stepActiveX1] 1 "Session neu gestartet").2
      1 "X1" 7).1 = QCLogic.ScanOutcome.exit_error := by
  refine ⟨by decide, by decide, by rfl⟩

/-- C3 counterexample: with the stored procedure unavailable, the fallback
abort path marks the active row Completed = 1, leaves its status field
unchanged (not aborted) and records no reason in the notes. -/
theorem C3_fallback_abort_marks_completed :
    (QCLogic.abortActiveStepsForSession envFallback [stepActiveX1] 1 "Session beendet").1 = 1
  ∧ ∀ s ∈ (QCLogic.abortActiveStepsForSession envFallback [stepActiveX1] 1
      "Session beendet").2,
      s.completed = true ∧ s.qcStatus ≠ QCStatus.aborted ∧ s.qualityNotes = none := by
  exact ⟨by decide, by decide⟩

/-- C3 (amended): sp_AbortActiveQCSteps transitions exactly the active rows
of the session to aborted with end time now and the reason appended to the
notes, leaves every other row unchanged, returns the number of transitioned
rows, and never changes the Completed flag; no active row of the session
remains. -/
theorem C3_sp_abort_spec (store : Store) (sessionId : Nat) (reason : String)
    (now : Nat) (d : QCStep) :
    (Schema.sp_AbortActiveQCSteps store sessionId reason now).1 =
      (store.filter (fun s =>
        s.sessionId == sessionId && s.qcStatus == QCStatus.active)).length
  ∧ (Schema.sp_AbortActiveQCSteps store sessionId reason now).2.length = store.length
  ∧ (∀ i, i < store.length →
      (((store.getD i d).sessionId = sessionId ∧
        (store.getD i d).qcStatus = QCStatus.active) →
        ((Schema.sp_AbortActiveQCSteps store sessionId reason now).2.getD i d).qcStatus =
            QCStatus.aborted
        ∧ ((Schema.sp_AbortActiveQCSteps store sessionId reason now).2.getD i d).endTime =
            some now
        ∧ ((Schema.sp_AbortActiveQCSteps store sessionId reason now).2.getD i d).qualityNotes =
            some (Schema.appendNote (store.getD i d).qualityNotes reason)
        ∧ ((Schema.sp_AbortActiveQCSteps store sessionId reason now).2.getD i d).completed =
            (store.getD i d).completed)
      ∧ (¬((store.getD i d).sessionId = sessionId ∧
          (store.getD i d).qcStatus = QCStatus.active) →
        (Schema.sp_AbortActiveQCSteps store sessionId reason now).2.getD i d =
          store.getD i d))
  ∧ (∀ t ∈ (Schema.sp_AbortActiveQCSteps store sessionId reason now).2,
      ¬(t.sessionId = sessionId ∧ t.qcStatus = QCStatus.active)) := by
  refine ⟨rfl, by simp [Schema.sp_AbortActiveQCSteps], ?_, ?_⟩
  · intro i hi
    have h2 : (Schema.sp_AbortActiveQCSteps store sessionId reason now).2 =
        store.map (fun s =>
          if s.sessionId == sessionId && s.qcStatus == QCStatus.active
          then { s with qcStatus := QCStatus.aborted, endTime := some now,
                        qualityNotes := some (Schema.appendNote s.qualityNotes reason) }
          else s) := rfl
    have hmap := getD_map_lt (fun s =>
        if s.sessionId == sessionId && s.qcStatus == QCStatus.active
        then { s with qcStatus := QCStatus.aborted, endTime := some now,
                      qualityNotes := some (Schema.appendNote s.qualityNotes reason) }
        else s) d store i hi
    refine ⟨?_, ?_⟩
    · intro hcond
      have hb : ((store.getD i d).sessionId == sessionId &&
          (store.getD i d).qcStatus == QCStatus.active) = true := by
        simp only [Bool.and_eq_true, beq_iff_eq]
        exact ⟨hcond.1, hcond.2⟩
      rw [h2, hmap]
      dsimp only
      rw [if_pos hb]
      exact ⟨rfl, rfl, rfl, rfl⟩
    · intro hcond
      have hnb : ¬(((store.getD i d).sessionId == sessionId &&
          (store.getD i d).qcStatus == QCStatus.active) = true) := by
        intro hb
        apply hcond
        simp only [Bool.and_eq_true, beq_iff_eq] at hb
        exact ⟨hb.1, hb.2⟩
      rw [h2, hmap]
      dsimp only
      rw [if_neg hnb]
  · intro t ht hcontra
    obtain ⟨hsid, hact⟩ := hcontra
    have h2 : (Schema.sp_AbortActiveQCSteps store sessionId reason now).2 =
        store.map (fun s =>
          if s.sessionId == sessionId && s.qcStatus == QCStatus.active
          then { s with qcStatus := QCStatus.aborted, endTime := some now,
                        qualityNotes := some (Schema.appendNote s.qualityNotes reason) }
          else s) := rfl
    rw [h2, List.mem_map] at ht
    obtain ⟨s, hs, hfs⟩ := ht
    by_cases hc : (s.sessionId == sessionId && s.qcStatus == QCStatus.active) = true
    · rw [if_pos hc] at hfs
      rw [← hfs] at hact
      simp at hact
    · rw [if_neg hc] at hfs
      subst hfs
      refine hc ?_
      simp only [Bool.and_eq_true, beq_iff_eq]
      exact ⟨hsid, hact⟩

/-- C3 witness: the amended abort specification applied to a single active
row of session 1. -/
theorem C3_sp_abort_spec_witness :
    ((Schema.sp_AbortActiveQCSteps [stepActiveX1] 1 "Session beendet" 200).2.getD 0
      stepActiveX1).qcStatus = QCStatus.aborted := by
  exact (((C3_sp_abort_spec [stepActiveX1] 1 "Session beendet" 200
    stepActiveX1).2.2.1 0 (by decide)).1 (by exact ⟨rfl, rfl⟩)).1

/-- C4 counterexample: when the most recent step for (session, code) is an
aborted row (status not active, Completed still 0), processQRScan takes the
exit path, not the entry path the claim prescribes for a non-active most
recent item. -/
theorem C4_aborted_latest_takes_exit_path :
    QCQueries.getLatestQCStepForQRCode [stepAbortedX1] 1 "X1" = some stepAbortedX1
  ∧ stepAbortedX1.qcStatus = QCStatus.aborted
  ∧ (QCLogic.processQRScan envSP [stepAbortedX1] 1 "X1" 7).1 =
      QCLogic.ScanOutcome.exit_error
  ∧ isEntryOutcome (QCLogic.processQRScan envSP [stepAbortedX1] 1 "X1" 7).1 = false := by
  exact ⟨rfl, rfl, rfl, rfl⟩

/-- C4 (amended): the dispatch criterion is the Completed flag of the most
recent step, fetched regardless of status: no step or a completed most
recent step sends the scan down the entry path, a most recent step with
Completed = 0 (active or aborted alike) sends it down the exit path. -/
theorem C4_dispatch_on_completed_flag (env : QCLogic.Env) (store : Store)
    (sessionId : Nat) (qrCode : String) (scanId : Nat)
    (hs : env.sessionOk = true) :
    ((∀ s, QCQueries.getLatestQCStepForQRCode store sessionId qrCode = some s →
        s.completed = true) →
      isEntryOutcome (QCLogic.processQRScan env store sessionId qrCode scanId).1 = true)
  ∧ (∀ s, QCQueries.getLatestQCStepForQRCode store sessionId qrCode = some s →
      s.completed = false →
      isExitOutcome (QCLogic.processQRScan env store sessionId qrCode scanId).1 = true) := by
  constructor
  · intro hall
    unfold QCLogic.processQRScan
    cases hlat : QCQueries.getLatestQCStepForQRCode store sessionId qrCode with
    | none =>
      simp only [hs, Bool.not_true, Bool.false_eq_true, if_false]
      exact processEntranceScan_isEntry env store sessionId qrCode scanId
    | some s =>
      have hc := hall s hlat
      simp only [hs, hc, Bool.not_true, Bool.false_eq_true, if_false]
      exact processEntranceScan_isEntry env store sessionId qrCode scanId
  · intro s hlat hc
    unfold QCLogic.processQRScan
    simp only [hs, hlat, hc, Bool.not_true, Bool.not_false, Bool.false_eq_true, if_false,
      if_true]
    exact processExitScan_isExit env store sessionId qrCode scanId s

/-- C4 witness: the amended dispatch applied to an empty store (entry path)
and to a store with one active row (exit path). -/
theorem C4_dispatch_on_completed_flag_witness :
    isEntryOutcome (QCLogic.processQRScan envSP [] 1 "ABC12" 5).1 = true
  ∧ isExitOutcome (QCLogic.processQRScan envSP [stepActiveX1] 1 "X1" 7).1 = true := by
  constructor
  · exact (C4_dispatch_on_completed_flag envSP [] 1 "ABC12" 5 rfl).1
      (fun s hs => Option.noConfusion hs)
  · exact (C4_dispatch_on_completed_flag envSP [stepActiveX1] 1 "X1" 7 rfl).2
      stepActiveX1 rfl rfl

end QC

namespace QC

/-- C5: with the default limit of 10, an entry scan at an active count
equal to the limit returns limit_exceeded and leaves the store unchanged,
while at limit minus one (no same-day completion for the code, working
store, no active row for the pair) the limit check passes and an item is
created. -/
theorem C5_parallel_limit_boundary (env : QCLogic.Env) (store : Store)
    (sessionId : Nat) (qrCode : String) (scanId : Nat) :
    defaultConfig.maxParallelStepsPerSession = 10
  ∧ (QCLogic.getActiveStepsCount env store sessionId = env.cfg.maxParallelStepsPerSession →
      QCLogic.processEntranceScan env store sessionId qrCode scanId =
        (QCLogic.ScanOutcome.limit_exceeded
          (QCLogic.getActiveStepsCount env store sessionId), store))
  ∧ (QCLogic.getActiveStepsCount env store sessionId + 1 =
        env.cfg.maxParallelStepsPerSession →
     (QCQueries.getCompletedQCStepsToday store sessionId env.now).any
        (fun s => s.qrCode == qrCode) = false →
     env.failStartStore = false →
     Schema.hasActiveFor store sessionId qrCode = false →
     ∃ step, QCLogic.processEntranceScan env store sessionId qrCode scanId =
       (QCLogic.ScanOutcome.entrance_started step, store ++ [step])) := by
  refine ⟨rfl, ?_, ?_⟩
  · intro hcount
    unfold QCLogic.processEntranceScan
    dsimp only
    rw [if_pos (by omega)]
  · intro hcount htoday hfail hact
    unfold QCLogic.processEntranceScan
    dsimp only
    rw [if_neg (by omega), if_neg (by simp [htoday])]
    unfold QCLogic.startQCStep
    rw [hfail]
    have hnact : ¬(Schema.hasActiveFor store sessionId qrCode = true) := by
      rw [hact]
      exact Bool.false_ne_true
    by_cases hsp : env.hasSPStart = true
    · rw [hsp]
      unfold Schema.sp_StartQCStep
      rw [if_neg hnact]
      exact ⟨_, rfl⟩
    · rw [Bool.not_eq_true] at hsp
      rw [hsp]
      exact ⟨_, rfl⟩

/-- C5 witness: the boundary applied with a cached active count of ten
(limit_exceeded) and of nine (item created). -/
theorem C5_parallel_limit_boundary_witness :
    QCLogic.processEntranceScan envCacheTen [] 1 "ABC12" 5 =
      (QCLogic.ScanOutcome.limit_exceeded 10, [])
  ∧ ∃ step, QCLogic.processEntranceScan envCacheNine [] 1 "ABC12" 5 =
      (QCLogic.ScanOutcome.entrance_started step, [] ++ [step]) := by
  constructor
  · exact (C5_parallel_limit_boundary envCacheTen [] 1 "ABC12" 5).2.1 (by decide)
  · exact (C5_parallel_limit_boundary envCacheNine [] 1 "ABC12" 5).2.2 (by decide) rfl rfl rfl

end QC

namespace QC

theorem handleQRCodeDetected_processed (st : Renderer.AppState) (qrData : String)
    (t : Nat)
    (h : (Renderer.handleQRCodeDetected st qrData t).1 = Renderer.DetectResult.processed) :
    Renderer.handleQRCodeDetected st qrData t =
      (Renderer.DetectResult.processed, Renderer.acceptScan st qrData t) := by
  unfold Renderer.handleQRCodeDetected at h ⊢
  split_ifs at h ⊢
  rfl

/-- C6: a second submission of the same code within scanCooldownMs of an
accepted one is silently dropped by the duplicate-suppression checks with
no state change, while the same state still accepts a different code -
the suppression is keyed by the code value alone. -/
theorem C6_duplicate_suppression (st : Renderer.AppState) (qrData : String)
    (t0 t1 : Nat)
    (h1 : (Renderer.handleQRCodeDetected st qrData t0).1 = Renderer.DetectResult.processed)
    (hcool : st.scanCooldown = 3000)
    (hwin : t1 - t0 < 3000) :
    Renderer.handleQRCodeDetected (Renderer.handleQRCodeDetected st qrData t0).2 qrData t1 =
      (Renderer.DetectResult.dropped, (Renderer.handleQRCodeDetected st qrData t0).2)
  ∧ (∀ q2, q2 ≠ qrData → Renderer.mapGet st.recentlyScanned q2 = none →
      q2 ∉ st.pendingScans →
      (Renderer.handleQRCodeDetected (Renderer.handleQRCodeDetected st qrData t0).2 q2 t1).1 =
        Renderer.DetectResult.processed) := by
  rw [handleQRCodeDetected_processed st qrData t0 h1]
  constructor
  · by_cases h2s : t1 - t0 < 2000
    · unfold Renderer.handleQRCodeDetected
      rw [if_pos ⟨rfl, h2s⟩]
    · have hch : Renderer.cooldownHit (Renderer.acceptScan st qrData t0) qrData t1 = true := by
        unfold Renderer.cooldownHit
        have hfind : Renderer.mapGet (Renderer.acceptScan st qrData t0).recentlyScanned
            qrData = some t0 := by
          unfold Renderer.acceptScan Renderer.mapGet Renderer.mapSet
          dsimp only
          rw [List.find?_cons_of_pos _ (by simp)]
          rfl
        rw [hfind]
        have hsc : (Renderer.acceptScan st qrData t0).scanCooldown = 3000 := hcool
        rw [hsc]
        exact decide_eq_true hwin
      unfold Renderer.handleQRCodeDetected
      rw [if_neg (fun hcon => h2s hcon.2), if_pos hch]
  · intro q2 hne hrec hpend
    have hc1 : ¬((Renderer.acceptScan st qrData t0).lastProcessedQR = some q2 ∧
        t1 - (Renderer.acceptScan st qrData t0).lastProcessedTime < 2000) := by
      intro hcon
      have hq : some qrData = some q2 := hcon.1
      injection hq with hq
      exact hne hq.symm
    have hc2 : Renderer.cooldownHit (Renderer.acceptScan st qrData t0) q2 t1 = false := by
      unfold Renderer.cooldownHit
      have hfind : Renderer.mapGet (Renderer.acceptScan st qrData t0).recentlyScanned
          q2 = none := by
        unfold Renderer.acceptScan Renderer.mapGet Renderer.mapSet
        dsimp only
        rw [List.find?_cons_of_neg _ (by simp; exact fun hcon => hne hcon.symm)]
        unfold Renderer.mapGet at hrec
        exact hrec
      rw [hfind]
    have hc3 : q2 ∉ (Renderer.acceptScan st qrData t0).pendingScans := hpend
    unfold Renderer.handleQRCodeDetected
    rw [if_neg hc1, if_neg (by rw [hc2]; exact Bool.false_ne_true), if_neg hc3]

/-- C6 witness: the fresh state accepts code ABC12 at 10000 ms; the same
code 1500 ms later is dropped while code XYZ99 is accepted. -/
theorem C6_duplicate_suppression_witness :
    Renderer.handleQRCodeDetected
        (Renderer.handleQRCodeDetected freshAppState "ABC12" 10000).2 "ABC12" 11500 =
      (Renderer.DetectResult.dropped,
        (Renderer.handleQRCodeDetected freshAppState "ABC12" 10000).2)
  ∧ (Renderer.handleQRCodeDetected
        (Renderer.handleQRCodeDetected freshAppState "ABC12" 10000).2 "XYZ99" 11500).1 =
      Renderer.DetectResult.processed := by
  constructor
  · exact (C6_duplicate_suppression freshAppState "ABC12" 10000 11500 rfl rfl
      (by decide)).1
  · exact (C6_duplicate_suppression freshAppState "ABC12" 10000 11500 rfl rfl
      (by decide)).2 "XYZ99" (by decide) rfl (by decide)

end QC

namespace QC

theorem rmGet_rmSet_ne (m : MainProcess.RateMap) (sessionId sessionId2 : Nat)
    (l : List Nat) (h : sessionId2 ≠ sessionId) :
    MainProcess.rmGet (MainProcess.rmSet m sessionId l) sessionId2 =
      MainProcess.rmGet m sessionId2 := by
  unfold MainProcess.rmGet MainProcess.rmSet
  rw [List.find?_cons_of_neg _ (by simp; exact fun hcon => h hcon.symm)]

theorem rmGet_check_snd_ne (m : MainProcess.RateMap) (sessionId now sessionId2 : Nat)
    (h : sessionId2 ≠ sessionId) :
    MainProcess.rmGet (MainProcess.checkQRScanRateLimit m sessionId now).2 sessionId2 =
      MainProcess.rmGet m sessionId2 :=
  rmGet_rmSet_ne m sessionId sessionId2 _ h

theorem rmGet_update_ne (m : MainProcess.RateMap) (sessionId now sessionId2 : Nat)
    (h : sessionId2 ≠ sessionId) :
    MainProcess.rmGet (MainProcess.updateQRScanRateLimit m sessionId now) sessionId2 =
      MainProcess.rmGet m sessionId2 :=
  rmGet_rmSet_ne m sessionId sessionId2 _ h

theorem checkQRScanRateLimit_fst (m : MainProcess.RateMap) (sessionId now : Nat) :
    (MainProcess.checkQRScanRateLimit m sessionId now).1 =
      decide (((MainProcess.rmGet m sessionId).filter
        (fun t => decide (now - t < 60000))).length < MainProcess.maxQRScansPerMinute) := rfl

/-- C7: the rate limiter rejects with rate_limit, before any row is
written, as soon as the sixty-second window of the session holds at least
maxScansPerMinute (30) timestamps, and one session's saves never change
another session's stored window or check verdict. -/
theorem C7_rate_limiter (env : MainProcess.SaveEnv) (m : MainProcess.RateMap)
    (scans : List (Nat × String)) (sessionId : Nat) (payload : String) (now : Nat) :
    MainProcess.maxQRScansPerMinute = 30
  ∧ (env.dbOnline = true →
     MainProcess.maxQRScansPerMinute ≤
       ((MainProcess.rmGet m sessionId).filter (fun t => decide (now - t < 60000))).length →
     (MainProcess.qrScanSave env m scans sessionId payload now).1 =
        MainProcess.SaveStatus.rate_limit
     ∧ (MainProcess.qrScanSave env m scans sessionId payload now).2.2 = scans)
  ∧ (∀ sessionId2, sessionId2 ≠ sessionId →
      MainProcess.rmGet (MainProcess.qrScanSave env m scans sessionId payload now).2.1
        sessionId2 = MainProcess.rmGet m sessionId2)
  ∧ (∀ sessionId2 now2, sessionId2 ≠ sessionId →
      (MainProcess.checkQRScanRateLimit
        (MainProcess.qrScanSave env m scans sessionId payload now).2.1 sessionId2 now2).1 =
      (MainProcess.checkQRScanRateLimit m sessionId2 now2).1) := by
  have hiso : ∀ sessionId2, sessionId2 ≠ sessionId →
      MainProcess.rmGet (MainProcess.qrScanSave env m scans sessionId payload now).2.1
        sessionId2 = MainProcess.rmGet m sessionId2 := by
    intro sessionId2 hne
    unfold MainProcess.qrScanSave
    split
    · rfl
    · dsimp only
      split
      · exact rmGet_check_snd_ne m sessionId now sessionId2 hne
      · split
        · dsimp only
          rw [rmGet_update_ne _ sessionId now sessionId2 hne]
          exact rmGet_check_snd_ne m sessionId now sessionId2 hne
        · exact rmGet_check_snd_ne m sessionId now sessionId2 hne
  refine ⟨rfl, ?_, hiso, ?_⟩
  · intro hdb hge
    have hfalse : (MainProcess.checkQRScanRateLimit m sessionId now).1 = false := by
      rw [checkQRScanRateLimit_fst]
      exact decide_eq_false (by omega)
    unfold MainProcess.qrScanSave
    rw [hdb]
    dsimp only
    rw [hfalse]
    exact ⟨rfl, rfl⟩
  · intro sessionId2 now2 hne
    rw [checkQRScanRateLimit_fst, checkQRScanRateLimit_fst, hiso sessionId2 hne]

/-- C7 witness: with thirty scans of session 1 inside the window, the
next save of session 1 is rejected with rate_limit and writes nothing. -/
theorem C7_rate_limiter_witness :
    (MainProcess.qrScanSave ⟨true, true⟩ rateMapFull [] 1 "ABC12" 30000).1 =
      MainProcess.SaveStatus.rate_limit
  ∧ (MainProcess.qrScanSave ⟨true, true⟩ rateMapFull [] 1 "ABC12" 30000).2.2 = [] := by
  exact (C7_rate_limiter ⟨true, true⟩ rateMapFull [] 1 "ABC12" 30000).2.1 rfl (by decide)

end QC

namespace QC

/-- C8: processQRScan is a total function into the outcome taxonomy; an
invalid session yields error, a store failure during entry creation yields
entrance_error, and a store failure during exit completion yields
exit_error, in each case with the store unchanged. -/
theorem C8_error_outcomes (env : QCLogic.Env) (store : Store) (sessionId : Nat)
    (qrCode : String) (scanId : Nat) :
    (env.sessionOk = false →
      QCLogic.processQRScan env store sessionId qrCode scanId =
        (QCLogic.ScanOutcome.error, store))
  ∧ (env.sessionOk = true → takesEntryPath store sessionId qrCode = true →
     QCLogic.getActiveStepsCount env store sessionId <
       env.cfg.maxParallelStepsPerSession →
     (QCQueries.getCompletedQCStepsToday store sessionId env.now).any
       (fun s => s.qrCode == qrCode) = false →
     env.failStartStore = true →
     QCLogic.processQRScan env store sessionId qrCode scanId =
       (QCLogic.ScanOutcome.entrance_error, store))
  ∧ (env.sessionOk = true → takesEntryPath store sessionId qrCode = false →
     env.failCompleteStore = true →
     QCLogic.processQRScan env store sessionId qrCode scanId =
       (QCLogic.ScanOutcome.exit_error, store)) := by
  refine ⟨?_, ?_, ?_⟩
  · intro hbad
    unfold QCLogic.processQRScan
    rw [hbad]
    rfl
  · intro hok hentry hlt htoday hfail
    have hentrance : QCLogic.processEntranceScan env store sessionId qrCode scanId =
        (QCLogic.ScanOutcome.entrance_error, store) := by
      unfold QCLogic.processEntranceScan
      dsimp only
      rw [if_neg (by omega), if_neg (by rw [htoday]; exact Bool.false_ne_true)]
      unfold QCLogic.startQCStep
      rw [hfail]
      rfl
    unfold QCLogic.processQRScan
    rw [hok]
    unfold takesEntryPath at hentry
    cases hlat : QCQueries.getLatestQCStepForQRCode store sessionId qrCode with
    | none => exact hentrance
    | some s =>
      rw [hlat] at hentry
      dsimp only at hentry
      dsimp only
      rw [hentry]
      exact hentrance
  · intro hok hexit hfail
    unfold QCLogic.processQRScan
    rw [hok]
    unfold takesEntryPath at hexit
    cases hlat : QCQueries.getLatestQCStepForQRCode store sessionId qrCode with
    | none =>
      rw [hlat] at hexit
      dsimp only at hexit
      exact Bool.noConfusion hexit
    | some s =>
      rw [hlat] at hexit
      dsimp only at hexit
      dsimp only
      rw [hexit]
      have hcode : s.qrCode = qrCode := (getLatest_mem store sessionId qrCode s hlat).2.2
      have hmatch : ¬((s.qrCode != qrCode) = true) := by
        rw [hcode]
        simp
      unfold QCLogic.processExitScan
      rw [if_neg hmatch]
      unfold QCLogic.completeQCStep
      rw [hfail]
      rfl

/-- C8 witness: the three failure translations at concrete inputs. -/
theorem C8_error_outcomes_witness :
    QCLogic.processQRScan envBadSession [] 1 "ABC12" 5 = (QCLogic.ScanOutcome.error, [])
  ∧ QCLogic.processQRScan envFailStart [] 1 "ABC12" 5 =
      (QCLogic.ScanOutcome.entrance_error, [])
  ∧ QCLogic.processQRScan envFailComplete [stepActiveX1] 1 "X1" 7 =
      (QCLogic.ScanOutcome.exit_error, [stepActiveX1]) := by
  refine ⟨?_, ?_, ?_⟩
  · exact (C8_error_outcomes envBadSession [] 1 "ABC12" 5).1 rfl
  · exact (C8_error_outcomes envFailStart [] 1 "ABC12" 5).2.1 rfl rfl (by decide) rfl rfl
  · exact (C8_error_outcomes envFailComplete [stepActiveX1] 1 "X1" 7).2.2 rfl rfl rfl

/-- C9: validateQRCode classifies the two-character code ab as invalid,
yet no caller invokes it on the scan path: processQRScan accepts the
malformed code, runs the entry path and creates an inspection item
carrying it, instead of rejecting the scan before the state machine. -/
theorem C9_malformed_code_reaches_state_machine :
    QCLogic.validateQRCode "ab" = false
  ∧ (∃ step, (QCLogic.processQRScan envFallback [] 1 "ab" 5).1 =
      QCLogic.ScanOutcome.entrance_started step ∧ step.qrCode = "ab")
  ∧ (QCLogic.processQRScan envFallback [] 1 "ab" 5).2.map QCStep.qrCode = ["ab"] := by
  refine ⟨by decide, ⟨_, rfl, rfl⟩, by rfl⟩

/-- C10: on a cache miss with a failing store read, getActiveStepsCount
reports zero, so the entry scan passes the parallel-limit check whatever
the true number of active items is. -/
theorem C10_limit_fails_open (env : QCLogic.Env) (store : Store) (sessionId : Nat)
    (qrCode : String) (scanId : Nat)
    (hc : env.cache = none) (hf : env.failActiveStepsQuery = true) :
    QCLogic.getActiveStepsCount env store sessionId = 0
  ∧ (1 ≤ env.cfg.maxParallelStepsPerSession →
     ∀ n, (QCLogic.processEntranceScan env store sessionId qrCode scanId).1 ≠
       QCLogic.ScanOutcome.limit_exceeded n) := by
  have hcount : QCLogic.getActiveStepsCount env store sessionId = 0 := by
    unfold QCLogic.getActiveStepsCount
    rw [hc, hf]
    rfl
  refine ⟨hcount, ?_⟩
  intro hmax n hcontra
  unfold QCLogic.processEntranceScan at hcontra
  dsimp only at hcontra
  rw [hcount] at hcontra
  rw [if_neg (by omega)] at hcontra
  split at hcontra
  · simp at hcontra
  · split at hcontra <;> simp at hcontra

/-- C10 witness: fifty active rows in the store, failing read: count is
reported as zero and the entry scan is not limit_exceeded. -/
theorem C10_limit_fails_open_witness :
    QCLogic.getActiveStepsCount envFailQuery storeFifty 1 = 0
  ∧ (QCLogic.processEntranceScan envFailQuery storeFifty 1 "ABC12" 5).1 ≠
      QCLogic.ScanOutcome.limit_exceeded 50 := by
  refine ⟨(C10_limit_fails_open envFailQuery storeFifty 1 "ABC12" 5 rfl rfl).1,
    (C10_limit_fails_open envFailQuery storeFifty 1 "ABC12" 5 rfl rfl).2 (by decide) 50⟩

end QC
